import Mathlib

/-!
Verification of the cloudflare-ai-proxy worker.

The repository holds two parallel implementations of the same OpenAI-style
chat-completion shim:

* `src/index.ts` — a self-contained handler with bearer-token validation
  (`validateToken`), a prompt-joining upstream call, and a *synthesized*
  streaming mode (`chunkText` slices plus a terminal chunk and a `[DONE]`
  sentinel);
* `src/deepseek-api.ts` — `createChatCompletion` plus the stream re-framer
  `transformStreamToDeepSeekFormat`, together with a second router variant
  (appended in the same file) that has no auth check and two demo routes.

This file embeds both shallowly.  Dynamic JavaScript values are modelled by
`JsValue`; `JSON.parse` by `jsonParse` (a fuel-indexed recursive-descent
reader over the char list, with fuel the reader provably cannot exhaust);
`JSON.stringify` by `jsonStringify`.  Numbers are modelled exactly as
`mantissa * 10 ^ exponent` pairs of integers: this is exact for every
integer literal appearing in the code and preserves zero-ness (hence JS
truthiness) for all finite JSON numbers; float rounding and float printing
of non-integers are outside the model.  Byte chunks of the upstream stream are modelled by their decoded
text.  Clock reads (`Date.now()`) and random ids are passed in as
parameters, which also makes the per-stream constancy of `id`/`created`
expressible.  HTTP responses are modelled by status, content type and body;
CORS headers are the same on every path and are not modelled.
-/

/-- A runtime JavaScript value as far as this worker can observe one:
`undefined`, `null`, booleans, numbers (`num m e` stands for the number
`m * 10 ^ e`, see the header note), strings, arrays and plain objects
(field lists in insertion order). -/
inductive JsValue where
  | undefined : JsValue
  | null : JsValue
  | bool (b : Bool) : JsValue
  | num (m : Int) (e : Int) : JsValue
  | str (s : String) : JsValue
  | arr (elems : List JsValue) : JsValue
  | obj (fields : List (String × JsValue)) : JsValue

/-- The integer `n` as a model number. -/
def jsInt (n : Int) : JsValue :=
  .num n 0

/-- JavaScript truthiness: `undefined`, `null`, `false`, `0` and `""` are
falsy; every other value, in particular every object and array, is truthy. -/
def truthy : JsValue → Bool
  | .undefined => false
  | .null => false
  | .bool b => b
  | .num m _ => if m = 0 then false else true
  | .str s => if s = "" then false else true
  | .arr _ => true
  | .obj _ => true

/-- Whether a value is the JavaScript `undefined`. -/
def isUndefined : JsValue → Bool
  | .undefined => true
  | _ => false

/-- Last-occurrence lookup in a field list: when `jsonParse` keeps duplicate
keys, property access sees the last one, exactly as `JSON.parse` does. -/
def lookupProp : List (String × JsValue) → String → Option JsValue
  | [], _ => none
  | (k', v) :: rest, k =>
    match lookupProp rest k with
    | some r => some r
    | none => if k' = k then some v else none

/-- JavaScript property access `v.k` in full: it *throws* a `TypeError`
(modelled as `none`) when the receiver is `null` or `undefined`, reads the
field (or `undefined`) on an object, and yields `undefined` on the other
primitives and on arrays (no own `length`/index properties and no
prototype chain are modelled — none of the worker's accesses touch
them). -/
def getPropEx (v : JsValue) (k : String) : Option JsValue :=
  match v with
  | .null => none
  | .undefined => none
  | .obj fields => some ((lookupProp fields k).getD .undefined)
  | _ => some .undefined

/-- Property access on a receiver that is known not to be `null` or
`undefined` (a parsed JSON object, say), where no `TypeError` can arise. -/
def getProp (v : JsValue) (k : String) : JsValue :=
  match v with
  | .obj fields => (lookupProp fields k).getD .undefined
  | _ => .undefined

/-- The `k in v` test on a field list. -/
def hasKey (fields : List (String × JsValue)) (k : String) : Bool :=
  fields.any (fun p => p.1 == k)

/-- JSON-grammar whitespace, the only characters `JSON.parse` skips. -/
def isJsonWs (c : Char) : Bool :=
  c.toNat = 32 || c.toNat = 9 || c.toNat = 10 || c.toNat = 13

/-- The whitespace class used by `String.prototype.trim` and by `\s` in the
worker's regexes: ASCII whitespace, NBSP, the BOM, the line and paragraph
separators and the Unicode space separators. -/
def isJsSpace (c : Char) : Bool :=
  c.toNat = 32 || (9 ≤ c.toNat && c.toNat ≤ 13) || c.toNat = 160 || c.toNat = 65279
    || c.toNat = 5760 || (8192 ≤ c.toNat && c.toNat ≤ 8202)
    || c.toNat = 8232 || c.toNat = 8233 || c.toNat = 8239 || c.toNat = 8287
    || c.toNat = 12288

/-- `text.trim()` on the character list. -/
def trimChars (cs : List Char) : List Char :=
  ((cs.dropWhile isJsSpace).reverse.dropWhile isJsSpace).reverse

/-- Whether the first list starts with the second (`String.startsWith`). -/
def startsWithChars : List Char → List Char → Bool
  | _, [] => true
  | [], _ :: _ => false
  | c :: cs, p :: ps => c = p && startsWithChars cs ps

/-- Whether `pat` occurs as a contiguous substring (`String.includes`). -/
def containsSub : List Char → List Char → Bool
  | [], pat => pat.isEmpty
  | c :: cs, pat => startsWithChars (c :: cs) pat || containsSub cs pat

/-- One character of a JSON string as `JSON.stringify` escapes it. -/
def jsonEscapeChar (c : Char) : String :=
  if c = '"' then "\\\""
  else if c = '\\' then "\\\\"
  else if c.toNat = 8 then "\\b"
  else if c.toNat = 9 then "\\t"
  else if c.toNat = 10 then "\\n"
  else if c.toNat = 12 then "\\f"
  else if c.toNat = 13 then "\\r"
  else if c.toNat < 32 then
    "\\u00" ++ String.mk [(Nat.digitChar (c.toNat / 16)), (Nat.digitChar (c.toNat % 16))]
  else String.mk [c]

/-- A JSON string literal for `s`, quotes included. -/
def quoteJsonString (s : String) : String :=
  "\"" ++ String.join (s.data.map jsonEscapeChar) ++ "\""

/-- Decimal rendering of a model number.  Integer values (a non-negative
exponent) print exactly as JavaScript prints them; numbers with a negative
exponent (which never arise from the worker's own literals) are rendered in
`mEe` notation, a deliberate point where the model does not chase float
formatting. -/
def numToString (m e : Int) : String :=
  if 0 ≤ e then toString (m * (10 : Int) ^ e.toNat)
  else toString m ++ "e" ++ toString e

mutual

/-- `JSON.stringify` on the model values.  `undefined` elements of arrays
serialize as `null` and `undefined`-valued object fields are dropped,
exactly as `JSON.stringify` does. -/
def jsonStringify : JsValue → String
  | .undefined => "null"
  | .null => "null"
  | .bool b => cond b "true" "false"
  | .num m e => numToString m e
  | .str s => quoteJsonString s
  | .arr l => "[" ++ String.intercalate "," (stringifyElems l) ++ "]"
  | .obj l => "\x7b" ++ String.intercalate "," (stringifyFields l) ++ "\x7d"

/-- Serialized array elements, in order. -/
def stringifyElems : List JsValue → List String
  | [] => []
  | v :: vs => jsonStringify v :: stringifyElems vs

/-- Serialized object fields, in order, with `undefined`-valued fields
dropped. -/
def stringifyFields : List (String × JsValue) → List String
  | [] => []
  | (k, v) :: vs =>
    match v with
    | .undefined => stringifyFields vs
    | w => (quoteJsonString k ++ ":" ++ jsonStringify w) :: stringifyFields vs

end

mutual

/-- JavaScript string coercion `String(v)` / `${v}`: arrays join their
elements with commas (`null`/`undefined` elements join as empty), objects
print as `[object Object]`. -/
def jsToString : JsValue → String
  | .undefined => "undefined"
  | .null => "null"
  | .bool b => cond b "true" "false"
  | .num m e => numToString m e
  | .str s => s
  | .obj _ => "[object Object]"
  | .arr l => String.intercalate "," (jsToStringElems l)

/-- Array elements under string coercion, in order. -/
def jsToStringElems : List JsValue → List String
  | [] => []
  | v :: vs =>
    match v with
    | .null => "" :: jsToStringElems vs
    | .undefined => "" :: jsToStringElems vs
    | w => jsToString w :: jsToStringElems vs

end

/-- Value of a hex digit, `none` for other characters. -/
def hexVal (c : Char) : Option Nat :=
  if '0' ≤ c ∧ c ≤ '9' then some (c.toNat - 48)
  else if 'a' ≤ c ∧ c ≤ 'f' then some (c.toNat - 87)
  else if 'A' ≤ c ∧ c ≤ 'F' then some (c.toNat - 70)
  else none

/-- Skip JSON whitespace. -/
def skipWs (cs : List Char) : List Char :=
  cs.dropWhile isJsonWs

/-- Body of a JSON string literal after the opening quote: returns the
decoded characters and the input after the closing quote.  Handles the
escapes `JSON.parse` accepts and rejects raw control characters, as
`JSON.parse` does.  A `\uXXXX` escape is decoded with `Char.ofNat`
(surrogate halves fall to the replacement behaviour of `Char.ofNat`). -/
def parseStringBody : List Char → Option (List Char × List Char)
  | [] => none
  | '"' :: rest => some ([], rest)
  | '\\' :: esc =>
    match esc with
    | '"' :: r => (parseStringBody r).map (fun p => ('"' :: p.1, p.2))
    | '\\' :: r => (parseStringBody r).map (fun p => ('\\' :: p.1, p.2))
    | '/' :: r => (parseStringBody r).map (fun p => ('/' :: p.1, p.2))
    | 'b' :: r => (parseStringBody r).map (fun p => (Char.ofNat 8 :: p.1, p.2))
    | 'f' :: r => (parseStringBody r).map (fun p => (Char.ofNat 12 :: p.1, p.2))
    | 'n' :: r => (parseStringBody r).map (fun p => ('\n' :: p.1, p.2))
    | 'r' :: r => (parseStringBody r).map (fun p => (Char.ofNat 13 :: p.1, p.2))
    | 't' :: r => (parseStringBody r).map (fun p => ('\t' :: p.1, p.2))
    | 'u' :: h1 :: h2 :: h3 :: h4 :: r =>
      match hexVal h1, hexVal h2, hexVal h3, hexVal h4 with
      | some a, some b, some c, some d =>
        (parseStringBody r).map
          (fun p => (Char.ofNat (((a * 16 + b) * 16 + c) * 16 + d) :: p.1, p.2))
      | _, _, _, _ => none
    | _ => none
  | c :: rest =>
    if c.toNat < 32 then none
    else (parseStringBody rest).map (fun p => (c :: p.1, p.2))

/-- A run of decimal digits and the rest of the input. -/
def takeDigits (cs : List Char) : List Char × List Char :=
  (cs.takeWhile Char.isDigit, cs.dropWhile Char.isDigit)

/-- Numeric value of a digit run. -/
def digitsToNat (ds : List Char) : Nat :=
  ds.foldl (fun acc c => acc * 10 + (c.toNat - 48)) 0

/-- A JSON number starting at the input, per the JSON grammar `JSON.parse`
enforces: optional minus, an integer part without leading zeros, optional
fraction and exponent.  Returns the value as a signed mantissa and a
power-of-ten exponent, together with the rest of the input. -/
def parseNumber (cs : List Char) : Option ((Int × Int) × List Char) :=
  let signed : Bool × List Char := match cs with
    | '-' :: r => (true, r)
    | _ => (false, cs)
  match signed.2 with
  | [] => none
  | c :: r =>
    if ¬ c.isDigit then none
    else if c = '0' && (match r with | d :: _ => d.isDigit | [] => false) then none
    else
      let intRun := takeDigits (c :: r)
      let afterInt := intRun.2
      let fracRun : Option (List Char × List Char) :=
        match afterInt with
        | '.' :: fr =>
          match takeDigits fr with
          | ([], _) => none
          | (ds, rest) => some (ds, rest)
        | _ => some ([], afterInt)
      match fracRun with
      | none => none
      | some (fracDigits, afterFrac) =>
        let expRun : Option (Int × List Char) :=
          match afterFrac with
          | 'e' :: er =>
            (match er with
             | '+' :: ds => (takeDigits ds |> fun p => if p.1 = [] then none else some ((digitsToNat p.1 : Int), p.2))
             | '-' :: ds => (takeDigits ds |> fun p => if p.1 = [] then none else some (-(digitsToNat p.1 : Int), p.2))
             | ds => (takeDigits ds |> fun p => if p.1 = [] then none else some ((digitsToNat p.1 : Int), p.2)))
          | 'E' :: er =>
            (match er with
             | '+' :: ds => (takeDigits ds |> fun p => if p.1 = [] then none else some ((digitsToNat p.1 : Int), p.2))
             | '-' :: ds => (takeDigits ds |> fun p => if p.1 = [] then none else some (-(digitsToNat p.1 : Int), p.2))
             | ds => (takeDigits ds |> fun p => if p.1 = [] then none else some ((digitsToNat p.1 : Int), p.2)))
          | _ => some (0, afterFrac)
        match expRun with
        | none => none
        | some (ex, rest) =>
          let mantissa : Int := (digitsToNat (intRun.1 ++ fracDigits) : Int)
          some ((if signed.1 then -mantissa else mantissa, ex - fracDigits.length), rest)

mutual

/-- One JSON value starting at the input.  The fuel is shared by the three
mutually recursive readers and spent once at every call, which keeps the
recursion structural (so everything reduces definitionally).  Along any
call chain, every two consecutive fuel decrements consume at least one
input character (`parseJsonVal → parseElems/parseFields` consumes the
opening bracket, an iteration of the element/member loop consumes the
element and its separator), so the `2 * (length + 1)` fuel supplied by
`jsonParseChars` can never run out. -/
def parseJsonVal : Nat → List Char → Option (JsValue × List Char)
  | 0, _ => none
  | fuel + 1, cs =>
    match skipWs cs with
    | 'n' :: 'u' :: 'l' :: 'l' :: r => some (.null, r)
    | 't' :: 'r' :: 'u' :: 'e' :: r => some (.bool true, r)
    | 'f' :: 'a' :: 'l' :: 's' :: 'e' :: r => some (.bool false, r)
    | '"' :: r => (parseStringBody r).map (fun p => (.str (String.mk p.1), p.2))
    | '[' :: r =>
      (match skipWs r with
       | ']' :: r' => some (.arr [], r')
       | inner => (parseElems fuel inner).map (fun p => (.arr p.1, p.2)))
    | '\x7b' :: r =>
      (match skipWs r with
       | '\x7d' :: r' => some (.obj [], r')
       | inner => (parseFields fuel inner).map (fun p => (.obj p.1, p.2)))
    | c :: r => if c = '-' ∨ c.isDigit then (parseNumber (c :: r)).map (fun p => (.num p.1.1 p.1.2, p.2)) else none
    | [] => none

/-- Comma-separated array elements up to the closing bracket. -/
def parseElems : Nat → List Char → Option (List JsValue × List Char)
  | 0, _ => none
  | fuel + 1, cs =>
    match parseJsonVal fuel cs with
    | none => none
    | some (v, r) =>
      match skipWs r with
      | ',' :: r' => (parseElems fuel r').map (fun p => (v :: p.1, p.2))
      | ']' :: r' => some ([v], r')
      | _ => none

/-- Comma-separated object members up to the closing brace, keys kept in
order with duplicates preserved (lookup later takes the last, as
`JSON.parse` assignment order does). -/
def parseFields : Nat → List Char → Option (List (String × JsValue) × List Char)
  | 0, _ => none
  | fuel + 1, cs =>
    match skipWs cs with
    | '"' :: kr =>
      (match parseStringBody kr with
       | none => none
       | some (kcs, r1) =>
         match skipWs r1 with
         | ':' :: r2 =>
           (match parseJsonVal fuel r2 with
            | none => none
            | some (v, r3) =>
              match skipWs r3 with
              | ',' :: r4 => (parseFields fuel r4).map (fun p => ((String.mk kcs, v) :: p.1, p.2))
              | '\x7d' :: r4 => some ([(String.mk kcs, v)], r4)
              | _ => none)
         | _ => none)
    | _ => none

end

/-- `JSON.parse` on a character list: one value, then nothing but
whitespace. -/
def jsonParseChars (cs : List Char) : Option JsValue :=
  match parseJsonVal (2 * (cs.length + 1)) cs with
  | some (v, rest) => if skipWs rest = [] then some v else none
  | none => none

/-- `JSON.parse` on a string. -/
def jsonParse (s : String) : Option JsValue :=
  jsonParseChars s.data

/-- The characters of the literal sentinel payload `[DONE]`. -/
def doneLit : List Char :=
  "[DONE]".data

/-- The characters of the empty-object payload `{}`. -/
def emptyObjLit : List Char :=
  "\x7b\x7d".data

/-- The characters of the literal `"usage"` (quotes included), the
bookkeeping marker `transformStreamToDeepSeekFormat` greps for. -/
def usageLit : List Char :=
  "\"usage\"".data

/-- The characters of the literal `"response"` (quotes included). -/
def responseLit : List Char :=
  "\"response\"".data

/-- The characters of the fallback pattern head `"response":"`. -/
def responseColonQuoteLit : List Char :=
  "\"response\":\"".data

/-- The capture of the first successful match of the JavaScript regex
`/"response":"([^"]*)"/` against the input.  The engine matches at the
leftmost position where the whole pattern can match: after the literal
head the capture is the maximal run of non-quote characters, and the match
succeeds there exactly when a closing quote follows.  When the head occurs
but no quote follows it at all, no later occurrence of the head can exist
either (any later occurrence would itself contain quotes after the first
head), so scanning stops with no match, as the engine does. -/
def regexResponseCapture : List Char → Option (List Char)
  | [] => none
  | c :: cs =>
    if startsWithChars (c :: cs) responseColonQuoteLit then
      let after := (c :: cs).drop responseColonQuoteLit.length
      let cap := after.takeWhile (fun d => d != '"')
      if cap.length < after.length then some cap else none
    else regexResponseCapture cs

/-- The completion-chunk record built by the re-framer in
`deepseek-api.ts`: `id`, `object`, `created`, `model` and a single choice
with a `delta.content` (a runtime value, as the code stores
`parsed.response || ''` there unconverted) and a `finish_reason`. -/
structure ChatCompletionChunk where
  id : String
  created : Nat
  model : String
  deltaContent : JsValue
  finishReason : Option String

/-- Shorthand for building the chunk the re-framer enqueues. -/
def mkChunk (id : String) (created : Nat) (model : String)
    (content : JsValue) (fin : Option String) : ChatCompletionChunk :=
  ⟨id, created, model, content, fin⟩

/-- `JSON.stringify` of a re-framer chunk, with the exact field order of the
object literal in `transformStreamToDeepSeekFormat`. -/
def chunkToJson (c : ChatCompletionChunk) : String :=
  jsonStringify (.obj
    [("id", .str c.id),
     ("object", .str "chat.completion.chunk"),
     ("created", jsInt c.created),
     ("model", .str c.model),
     ("choices", .arr
       [.obj
         [("index", jsInt 0),
          ("delta", .obj [("content", c.deltaContent)]),
          ("finish_reason",
            match c.finishReason with
            | some s => .str s
            | none => .null)]])])

/-- One item enqueued by the re-framer: a verbatim passthrough line, a
wrapped completion chunk, or the terminal sentinel. -/
inductive Emitted where
  | raw (text : String) : Emitted
  | chunk (c : ChatCompletionChunk) : Emitted
  | done : Emitted

/-- The byte string the re-framer enqueues for one emitted item. -/
def serializeEmitted : Emitted → String
  | .raw text => text ++ "\n"
  | .chunk c => "data: " ++ chunkToJson c ++ "\n\n"
  | .done => "data: [DONE]\n\n"

/-- The literal terminal sentinel event. -/
def doneSentinel : String :=
  "data: [DONE]\n\n"

/-- The keep-alive fallback of the re-framer's catch branch: for otherwise
unusable non-empty data it enqueues one empty-content chunk. -/
def emptyFallback (id : String) (created : Nat) (model : String)
    (data : List Char) : List Emitted :=
  if data ≠ [] ∧ trimChars data ≠ [] ∧ data ≠ emptyObjLit then
    [.chunk (mkChunk id created model (.str "") none)]
  else []

/-- The catch branch of the re-framer, reached both when `JSON.parse`
throws and when `parsed.response` throws a `TypeError` (a `null` payload):
the regex fallback with a non-empty capture, else the keep-alive
placeholder. -/
def catchFallback (id : String) (created : Nat) (model : String)
    (data : List Char) : List Emitted :=
  match regexResponseCapture data with
  | some cap =>
    if cap.isEmpty then emptyFallback id created model data
    else [.chunk (mkChunk id created model (.str (String.mk cap)) none)]
  | none => emptyFallback id created model data

/-- Processing of one trimmed `data: ` payload by
`transformStreamToDeepSeekFormat`, in the code's order: the `[DONE]`
passthrough, then the skip of empty, empty-object and usage-bookkeeping
payloads, then `JSON.parse` with the chunk built from `parsed.response`
and `parsed.done`; the catch fallback handles both a failed parse and the
`TypeError` that `parsed.response` throws when the payload parses to
`null` (`parsed.done` is then read on a receiver already known non-null,
so it cannot throw). -/
def processData (id : String) (created : Nat) (model : String)
    (data : List Char) : List Emitted :=
  if data = doneLit then [.done]
  else if data.isEmpty || data = emptyObjLit
      || (containsSub data usageLit && !containsSub data responseLit) then []
  else
    match jsonParseChars data with
    | some v =>
      (match getPropEx v "response" with
       | none => catchFallback id created model data
       | some r =>
         if isUndefined r then []
         else
           [.chunk (mkChunk id created model
             (if truthy r then r else .str "")
             (if truthy ((getPropEx v "done").getD .undefined) then some "stop" else none))])
    | none => catchFallback id created model data

/-- Processing of one delivered (already text-decoded) chunk by
`transformStreamToDeepSeekFormat`: blank chunks are dropped, `data: `
chunks go through `processData` on the trimmed remainder, and anything
else passes through newline-terminated. -/
def processChunk (id : String) (created : Nat) (model : String)
    (text : String) : List Emitted :=
  if trimChars text.data = [] then []
  else if startsWithChars text.data "data: ".data then
    processData id created model (trimChars (text.data.drop 6))
  else [.raw text]

/-- All items the re-framer emits for a delivered chunk sequence, in
order. -/
def transformEmitted (id : String) (created : Nat) (model : String) :
    List String → List Emitted
  | [] => []
  | t :: ts => processChunk id created model t ++ transformEmitted id created model ts

/-- `transformStreamToDeepSeekFormat`: the byte strings enqueued on the
transformed stream for a delivered chunk sequence.  `id` and `created` are
the values the function samples once when the stream is created. -/
def transformStreamToDeepSeekFormat (id : String) (created : Nat)
    (model : String) (chunks : List String) : List String :=
  (transformEmitted id created model chunks).map serializeEmitted

/-- The alias table of `deepseek-api.ts` (`MODEL_MAPPING` there). -/
def MODEL_MAPPING_api : List (String × String) :=
  [("deepseek-chat", "@cf/deepseek-ai/deepseek-v3"),
   ("deepseek-reasoner", "@cf/deepseek-ai/deepseek-r1-distill-qwen-32b")]

/-- The alias table of `index.ts` (`MODEL_MAPPING` there). -/
def MODEL_MAPPING_index : List (String × String) :=
  [("qwq", "@cf/qwen/qwq-32b"),
   ("qwen-coder", "@cf/qwen/qwen2.5-coder-32b-instruct"),
   ("deepseek-reasoner", "@cf/deepseek-ai/deepseek-r1-distill-qwen-32b")]

/-- The member names every plain object literal inherits from
`Object.prototype`.  An index access `MODEL_MAPPING[k]` with one of these
keys yields the inherited member — a function, or the prototype object for
`__proto__` — all of which are truthy, so `|| model` does not fall through
to the name. -/
def objectProtoKeys : List String :=
  ["constructor", "hasOwnProperty", "isPrototypeOf", "propertyIsEnumerable",
   "toLocaleString", "toString", "valueOf", "__proto__",
   "__defineGetter__", "__defineSetter__", "__lookupGetter__", "__lookupSetter__"]

/-- What `MODEL_MAPPING[model] || model` evaluates to: a string — a mapped
value or the unknown name itself — or, for an `Object.prototype` member
name, the truthy inherited member. -/
inductive ResolvedModel where
  | name (s : String) : ResolvedModel
  | inheritedMember (k : String) : ResolvedModel

/-- `MODEL_MAPPING[model] || model` over a given alias table: own keys
(all with non-empty, hence truthy, values) resolve first; otherwise the
index access consults the prototype chain, so an `Object.prototype` member
name yields the inherited member and only genuinely unknown names pass
through unchanged. -/
def resolveModel (table : List (String × String)) (model : String) : ResolvedModel :=
  match table.lookup model with
  | some v => .name v
  | none => if model ∈ objectProtoKeys then .inheritedMember model else .name model

/-- The JavaScript destructuring default `stream = false`: the default
applies exactly when the property is `undefined`. -/
def streamOrDefault (v : JsValue) : JsValue :=
  if isUndefined v then .bool false else v

/-- `stream === true || stream === 'true'`, the strict normalization in
`createChatCompletion`. -/
def normalizeStream : JsValue → Bool
  | .bool true => true
  | .str s => s = "true"
  | _ => false

/-- The options object handed to `env.AI.run`: `deepseek-api.ts` passes a
stream flag, the message sequence and the spread of the remaining request
fields; `index.ts` passes a joined prompt and a hard-coded `max_tokens`
(and no stream flag at all). -/
inductive AIInput where
  | optsA (stream : Bool) (messages : JsValue) (extra : List (String × JsValue)) : AIInput
  | optsB (prompt : String) (maxTokens : Nat) : AIInput

/-- Whether an upstream invocation asks for a streamed result; an options
object without a `stream` key requests a non-streamed one. -/
def requestedStream : AIInput → Bool
  | .optsA s _ _ => s
  | .optsB _ _ => false

/-- One `env.AI.run` invocation: the resolved model identifier and the
options object. -/
structure AIRunCall where
  model : ResolvedModel
  input : AIInput

/-- What `env.AI.run` hands back: a byte stream (modelled by its decoded
text chunks) or a plain value. -/
inductive AiResp where
  | byteStream (chunks : List String) : AiResp
  | value (v : JsValue) : AiResp

/-- The non-streaming result extraction of `createChatCompletion`: drain a
stream to text; keep a string; on an object take `response`, else `text`
(falsy values of either become the empty string), else `JSON.stringify` the
whole object; anything else becomes the empty string. -/
def extractContent : AiResp → JsValue
  | .byteStream chunks => .str (String.join chunks)
  | .value v =>
    match v with
    | .str s => .str s
    | .obj fields =>
      (match lookupProp fields "response" with
       | some r => if truthy r then r else .str ""
       | none =>
         match lookupProp fields "text" with
         | some t => if truthy t then t else .str ""
         | none => .str (jsonStringify (.obj fields)))
    | .arr l => .str (jsonStringify (.arr l))
    | _ => .str ""

/-- A response body: JSON text, a server-sent-event sequence, or nothing. -/
inductive RBody where
  | text (s : String) : RBody
  | sse (events : List String) : RBody
  | noBody : RBody

/-- An HTTP response as far as the claims observe one: status, content type
and body.  The permissive CORS headers are identical on every path and are
not modelled. -/
structure HttpResponse where
  status : Nat
  contentType : Option String
  body : RBody

/-- The structured 500 body both variants build from a caught error. -/
def internalErrorBody (msg : String) : String :=
  jsonStringify (.obj
    [("error", .obj
      [("message", .str msg),
       ("type", .str "internal_server_error"),
       ("param", .null),
       ("code", .str "internal_server_error")])])

/-- The 204 CORS preflight reply. -/
def corsPreflightResponse : HttpResponse :=
  ⟨204, none, .noBody⟩

/-- The 405 reply of both routers. -/
def methodNotAllowedResponse : HttpResponse :=
  ⟨405, some "application/json", .text "\x7b\"error\":\"Method not allowed\"\x7d"⟩

/-- The 404 reply of both routers. -/
def notFoundResponse : HttpResponse :=
  ⟨404, some "application/json", .text "\x7b\"error\":\"Not found\"\x7d"⟩

/-- The 401 reply of `index.ts`: note that `error` is a plain string here,
not a structured object. -/
def unauthorizedResponse : HttpResponse :=
  ⟨401, some "application/json",
    .text "\x7b\"error\":\"Unauthorized\",\"message\":\"Invalid API token\"\x7d"⟩

/-- The 400 reply of `index.ts` for an unparseable body. -/
def invalidJsonResponse : HttpResponse :=
  ⟨400, some "application/json", .text "\x7b\"error\":\"Invalid JSON body\"\x7d"⟩

/-- The 400 reply of `index.ts` for a non-array `messages`. -/
def messagesNotArrayResponse : HttpResponse :=
  ⟨400, some "application/json", .text "\x7b\"error\":\"Messages must be an array\"\x7d"⟩

/-- A 500 reply carrying the structured error body. -/
def internalErrorResponse (msg : String) : HttpResponse :=
  ⟨500, some "application/json", .text (internalErrorBody msg)⟩

/-- A parsed request body as `createChatCompletion` destructures it:
`model`, `messages`, the raw `stream` property (`undefined` when absent) and
the spread of every remaining field. -/
structure ReqA where
  model : String
  messages : JsValue
  streamField : JsValue
  otherParams : List (String × JsValue)

/-- The normalized stream flag of a request, `isStream` in the code. -/
def isStreamA (req : ReqA) : Bool :=
  normalizeStream (streamOrDefault req.streamField)

/-- The single upstream invocation `createChatCompletion` issues. -/
def upstreamCallApi (req : ReqA) : AIRunCall :=
  ⟨resolveModel MODEL_MAPPING_api req.model,
   .optsA (isStreamA req) req.messages req.otherParams⟩

/-- The `chat.completion` body `createChatCompletion` serializes in the
non-streaming path, with its exact field order. -/
def nonStreamingBodyApi (id : String) (created : Nat) (model : String)
    (content : JsValue) : String :=
  jsonStringify (.obj
    [("id", .str id),
     ("object", .str "chat.completion"),
     ("created", jsInt created),
     ("model", .str model),
     ("choices", .arr
       [.obj
         [("index", jsInt 0),
          ("message", .obj [("role", .str "assistant"), ("content", content)]),
          ("finish_reason", .str "stop")]]),
     ("usage", .obj
       [("prompt_tokens", jsInt 0),
        ("completion_tokens", jsInt 0),
        ("total_tokens", jsInt 0)])])

/-- `createChatCompletion` of `deepseek-api.ts`, returning the response and
the upstream invocations it issued.  `id` and `created` stand for the two
clock samples; `pipeErr` is the message of the `TypeError` thrown (and then
caught into a 500) if the streaming path receives a non-stream value to
pipe. -/
def createChatCompletion (id : String) (created : Nat) (pipeErr : String)
    (req : ReqA) (aiResp : AiResp) : HttpResponse × List AIRunCall :=
  let call := upstreamCallApi req
  if isStreamA req then
    match aiResp with
    | .byteStream chks =>
      (⟨200, some "text/event-stream",
        .sse (transformStreamToDeepSeekFormat id created req.model chks)⟩, [call])
    | .value _ => (internalErrorResponse pipeErr, [call])
  else
    (⟨200, some "application/json",
      .text (nonStreamingBodyApi id created req.model (extractContent aiResp))⟩, [call])

/-- The demo invocation the second router issues on `/` and `/demo`. -/
def demoRunCall : AIRunCall :=
  ⟨.name "@cf/deepseek-ai/deepseek-r1-distill-qwen-32b",
   .optsA true
     (.arr [.obj
       [("role", .str "user"),
        ("content", .str "What is the origin of the phrase Hello, World")]])
     [("max_tokens", jsInt 512)]⟩

/-- The router appended to `deepseek-api.ts` (its `fetch`): OPTIONS
preflight, the two chat paths (non-POST is 405; an unparseable body falls
into the catch-all and yields a 500, `parseErrMsg` being the thrown
message), the `/` and `/demo` demo stream, and 404 for the rest.  There is
no auth check in this variant. -/
def fetchApiRouter (method path : String) (bodyOpt : Option ReqA)
    (parseErrMsg pipeErr id : String) (created : Nat) (aiResp : AiResp)
    (demoEvents : List String) : HttpResponse × List AIRunCall :=
  if method = "OPTIONS" then (corsPreflightResponse, [])
  else if path = "/chat/completions" ∨ path = "/v1/chat/completions" then
    if method ≠ "POST" then (methodNotAllowedResponse, [])
    else
      match bodyOpt with
      | none => (internalErrorResponse parseErrMsg, [])
      | some b => createChatCompletion id created pipeErr b aiResp
  else if path = "/" ∨ path = "/demo" then
    (⟨200, some "text/event-stream", .sse demoEvents⟩, [demoRunCall])
  else (notFoundResponse, [])

/-- A parsed request body as `index.ts` reads it: `model`, the raw
`messages` property and the raw `stream` property. -/
structure ReqB where
  model : String
  messages : JsValue
  streamField : JsValue

/-- `const messages = body.messages || []` followed by the
`Array.isArray` check: a falsy property becomes the empty array, a truthy
non-array is rejected. -/
def msgsOf (v : JsValue) : Option (List JsValue) :=
  if truthy v then
    match v with
    | .arr l => some l
    | _ => none
  else some []

/-- The `role: content` lines of the prompt `index.ts` builds, in order;
`none` when some member's `m.role` (or `m.content`) access throws a
`TypeError`, which happens exactly when that member is `null` or
`undefined` — the callback runs left to right and the first throw
aborts the request into the surrounding catch. -/
def promptPartsEx : List JsValue → Option (List String)
  | [] => some []
  | m :: ms =>
    match getPropEx m "role", getPropEx m "content" with
    | some r, some c =>
      (promptPartsEx ms).map (fun l => (jsToString r ++ ": " ++ jsToString c) :: l)
    | _, _ => none

/-- The prompt `index.ts` builds:
`messages.map(m => role: content).join('\n') + '\nassistant:'`; `none`
when the map throws on a `null`/`undefined` member. -/
def promptOfEx (msgs : List JsValue) : Option String :=
  (promptPartsEx msgs).map (fun l => String.intercalate "\n" l ++ "\nassistant:")

/-- The slicing loop of `chunkText`, fuel-indexed by the input length so
that it stays structural; each step takes `size ≥ 1` characters, so the
fuel cannot run out. -/
def chunkTextGo : Nat → Nat → List Char → List String
  | 0, _, _ => []
  | _, _, [] => []
  | fuel + 1, size, l => String.mk (l.take size) :: chunkTextGo fuel size (l.drop size)

/-- `chunkText` of `index.ts`: `['']` for empty text or a non-positive
size, else the text in order, sliced into `size`-character pieces. -/
def chunkText (text : String) (size : Nat) : List String :=
  if text = "" ∨ size = 0 then [""]
  else chunkTextGo text.data.length size text.data

/-- One streamed chunk record of `index.ts`: an id and a single choice
whose `delta` either carries a content value or is the empty object, plus a
`finish_reason`.  These records have no `created` and no `model` field. -/
structure BChunk where
  id : String
  deltaContent : Option JsValue
  finishReason : Option String

/-- `JSON.stringify` of an `index.ts` chunk, with the exact field order of
its object literal (`delta` before `index`). -/
def bChunkToJson (c : BChunk) : String :=
  jsonStringify (.obj
    [("id", .str c.id),
     ("object", .str "chat.completion.chunk"),
     ("choices", .arr
       [.obj
         [("delta",
           match c.deltaContent with
           | some v => .obj [("content", v)]
           | none => .obj []),
          ("index", jsInt 0),
          ("finish_reason",
            match c.finishReason with
            | some s => .str s
            | none => .null)]])])

/-- `fullResponse ? chunkText(fullResponse, 20) : ['']` as the content
slices of the synthesized stream.  A falsy response yields one empty slice.
A truthy non-string response has no usable `length`, so the slicing loop
body never runs and no content chunk is produced (array-valued responses,
which alone would slice element-wise, are outside the model: the upstream
contract supplies text). -/
def responseChunks (v : JsValue) : List String :=
  if truthy v then
    match v with
    | .str s => chunkText s 20
    | _ => []
  else [""]

/-- The chunk records of one synthesized stream of `index.ts`: one content
chunk per slice, then the zero-content terminal chunk with
`finish_reason: 'stop'`.  All of them carry the one `responseId` sampled
when the stream starts. -/
def simulatedChunks (rid : String) (v : JsValue) : List BChunk :=
  (responseChunks v).map (fun s => ⟨rid, some (.str s), none⟩) ++ [⟨rid, none, some "stop"⟩]

/-- The event strings of one synthesized stream of `index.ts`: the chunk
records wrapped as `data: <json>\n\n`, then the literal `[DONE]`
sentinel. -/
def simulatedStream (rid : String) (v : JsValue) : List String :=
  (simulatedChunks rid v).map (fun c => "data: " ++ bChunkToJson c ++ "\n\n") ++ [doneSentinel]

/-- The `chat.completion` body `index.ts` serializes in the non-streaming
path, with its exact field order. -/
def nonStreamingBodyIndex (rid : String) (created : Nat) (model : String)
    (content : JsValue) : String :=
  jsonStringify (.obj
    [("id", .str rid),
     ("object", .str "chat.completion"),
     ("created", jsInt created),
     ("model", .str model),
     ("choices", .arr
       [.obj
         [("index", jsInt 0),
          ("message", .obj [("role", .str "assistant"), ("content", content)]),
          ("finish_reason", .str "stop")]]),
     ("usage", .obj
       [("prompt_tokens", jsInt 0),
        ("completion_tokens", jsInt 0),
        ("total_tokens", jsInt 0)])])

/-- The single upstream invocation `index.ts` issues for a chat request:
the resolved model, the joined prompt, `max_tokens` fixed at 200 and no
stream flag. -/
def upstreamCallIndex (model : String) (prompt : String) : AIRunCall :=
  ⟨resolveModel MODEL_MAPPING_index model, .optsB prompt 200⟩

/-- The completion core of `index.ts` after routing, auth and body parsing:
reject non-array `messages` (400); build the prompt, whose `m.role` access
throws on a `null`/`undefined` member into the surrounding catch (500,
upstream never invoked — `tErr` is the caught message); invoke the
upstream once; read `aiResult.response`, which throws the same way when
the upstream returned `null`/`undefined` (500, after the one invocation);
then answer either with the single JSON completion or with the synthesized
event stream, depending only on the truthiness of `body.stream`.  `rid` is
the `responseId` sample and `created` the clock sample. -/
def indexCompletion (rid : String) (created : Nat) (tErr : String) (body : ReqB)
    (aiResult : JsValue) : HttpResponse × List AIRunCall :=
  match msgsOf body.messages with
  | none => (messagesNotArrayResponse, [])
  | some msgs =>
    match promptOfEx msgs with
    | none => (internalErrorResponse tErr, [])
    | some prompt =>
      let call := upstreamCallIndex body.model prompt
      match getPropEx aiResult "response" with
      | none => (internalErrorResponse tErr, [call])
      | some fullResponse =>
        if truthy body.streamField then
          (⟨200, some "text/event-stream", .sse (simulatedStream rid fullResponse)⟩, [call])
        else
          (⟨200, some "application/json",
            .text (nonStreamingBodyIndex rid created body.model fullResponse)⟩, [call])

/-- The capture of `/^Bearer\s+(.+)$/` against a header value: after the
literal `Bearer` at least one whitespace character, then the rest as the
token.  When everything after the whitespace run is empty the greedy `\s+`
backtracks one character so that `.+` can still match, which is why a
header of `Bearer` plus two or more spaces yields a one-space token. -/
def bearerToken (h : String) : Option String :=
  if startsWithChars h.data "Bearer".data then
    let rest := h.data.drop 6
    let ws := rest.takeWhile isJsSpace
    let rem := rest.drop ws.length
    if ws.isEmpty then none
    else if rem ≠ [] then some (String.mk rem)
    else
      match ws with
      | _ :: _ :: _ => (ws.getLast?).map (fun c => String.mk [c])
      | _ => none
  else none

/-- `validateToken` of `index.ts`: a missing header, a non-Bearer scheme or
a token different from the configured `API_TOKEN` all fail. -/
def validateToken (authHeader : Option String) (apiToken : String) : Bool :=
  match authHeader with
  | none => false
  | some h =>
    match bearerToken h with
    | none => false
    | some t => t == apiToken

/-- The `fetch` handler of `index.ts`: OPTIONS preflight; on the two chat
paths first the method check (405), then `validateToken` (401), then body
parsing (400), then `indexCompletion` (whose thrown `TypeError`s the
handler's catch turns into a 500 with message `tErr`); 404 everywhere
else. -/
def fetchIndex (method path : String) (authHeader : Option String)
    (apiToken : String) (bodyOpt : Option ReqB) (aiResult : JsValue)
    (rid : String) (created : Nat) (tErr : String) : HttpResponse × List AIRunCall :=
  if method = "OPTIONS" then (corsPreflightResponse, [])
  else if path = "/chat/completions" ∨ path = "/v1/chat/completions" then
    if method ≠ "POST" then (methodNotAllowedResponse, [])
    else if validateToken authHeader apiToken then
      match bodyOpt with
      | none => (invalidJsonResponse, [])
      | some body => indexCompletion rid created tErr body aiResult
    else (unauthorizedResponse, [])
  else (notFoundResponse, [])

/-- Whether a response body has the `{error: {message, type, ...}}` shape
the specification promises for error replies. -/
def errorShapedBody (body : String) : Bool :=
  match jsonParse body with
  | some v =>
    (match getProp v "error" with
     | .obj fs => hasKey fs "message" && hasKey fs "type"
     | _ => false)
  | none => false

/-- Whether one delivered chunk is the upstream `[DONE]` event: a `data: `
prefix whose trimmed payload is the sentinel. -/
def isDoneEvent (text : String) : Bool :=
  startsWithChars text.data "data: ".data && trimChars (text.data.drop 6) == doneLit

/-- Unfolding of string append to char-list append. -/
theorem strDataAppend (s t : String) : (s ++ t).data = s.data ++ t.data := rfl

/-- A wrapped completion chunk never serializes to the sentinel event: its
seventh character is the object's opening brace where the sentinel has the
bracket of `[DONE]`. -/
theorem serializeChunk_ne_sentinel (c : ChatCompletionChunk) :
    serializeEmitted (.chunk c) ≠ doneSentinel := by
  intro h
  have hd := congrArg String.data h
  have h6 : (some '\x7b' : Option Char) = some '[' := congrArg (fun l => l.get? 6) hd
  exact absurd h6 (by decide)

/-- A passthrough line serializes to the sentinel event only if the line
itself was `data: [DONE]` followed by a newline. -/
theorem serializeRaw_eq_sentinel {s : String}
    (h : serializeEmitted (.raw s) = doneSentinel) : s = "data: [DONE]\n" := by
  have hd := congrArg String.data h
  rw [show serializeEmitted (.raw s) = s ++ "\n" from rfl, strDataAppend] at hd
  have h2 : s.data = "data: [DONE]\n".data := by
    have h3 : s.data ++ ['\n'] = "data: [DONE]\n".data ++ ['\n'] := hd
    exact List.append_cancel_right h3
  exact congrArg String.mk h2

/-- Every item of the re-framed stream comes from processing one delivered
chunk. -/
theorem mem_transformEmitted {id : String} {cr : Nat} {m : String} {e : Emitted} :
    ∀ {chks : List String}, e ∈ transformEmitted id cr m chks →
      ∃ t ∈ chks, e ∈ processChunk id cr m t := by
  intro chks
  induction chks with
  | nil => intro h; simp [transformEmitted] at h
  | cons t ts ih =>
    intro h
    rw [transformEmitted, List.mem_append] at h
    rcases h with h | h
    · exact ⟨t, List.mem_cons_self t ts, h⟩
    · obtain ⟨u, hu, he⟩ := ih h
      exact ⟨u, List.mem_cons_of_mem t hu, he⟩

/-- The catch fallback never emits the sentinel item. -/
theorem mem_catchFallback_done {id : String} {cr : Nat} {m : String} {data : List Char}
    (h : Emitted.done ∈ catchFallback id cr m data) : False := by
  unfold catchFallback emptyFallback at h
  split at h
  · split at h
    · split at h <;> simp_all
    · simp at h
  · split at h <;> simp_all

/-- Every chunk record the catch fallback emits carries the stream's fixed
`id` and `created`. -/
theorem mem_catchFallback_chunk {id : String} {cr : Nat} {m : String} {data : List Char}
    {c : ChatCompletionChunk} (h : Emitted.chunk c ∈ catchFallback id cr m data) :
    c.id = id ∧ c.created = cr := by
  unfold catchFallback emptyFallback at h
  split at h
  · split at h
    · split at h
      · simp at h; subst h; exact ⟨rfl, rfl⟩
      · simp at h
    · simp at h; subst h; exact ⟨rfl, rfl⟩
  · split at h
    · simp at h; subst h; exact ⟨rfl, rfl⟩
    · simp at h

/-- The catch fallback never emits a passthrough item. -/
theorem mem_catchFallback_not_raw {id : String} {cr : Nat} {m : String} {data : List Char}
    {s : String} (h : Emitted.raw s ∈ catchFallback id cr m data) : False := by
  unfold catchFallback emptyFallback at h
  split at h
  · split at h
    · split at h <;> simp at h
    · simp at h
  · split at h <;> simp at h

/-- The payload processor emits the sentinel item only for the literal
`[DONE]` payload. -/
theorem mem_processData_done {id : String} {cr : Nat} {m : String} {data : List Char}
    (h : Emitted.done ∈ processData id cr m data) : data = doneLit := by
  unfold processData at h
  split at h
  · assumption
  · split at h
    · simp at h
    · split at h
      · split at h
        · exact absurd h mem_catchFallback_done
        · split at h <;> simp_all
      · exact absurd h mem_catchFallback_done

/-- Every chunk record the payload processor emits carries the stream's
fixed `id` and `created`. -/
theorem mem_processData_chunk {id : String} {cr : Nat} {m : String} {data : List Char}
    {c : ChatCompletionChunk} (h : Emitted.chunk c ∈ processData id cr m data) :
    c.id = id ∧ c.created = cr := by
  unfold processData at h
  split at h
  · simp at h
  · split at h
    · simp at h
    · split at h
      · split at h
        · exact mem_catchFallback_chunk h
        · split at h
          · simp at h
          · simp at h
            subst h
            exact ⟨rfl, rfl⟩
      · exact mem_catchFallback_chunk h

/-- Every chunk record the per-chunk processor emits carries the stream's
fixed `id` and `created`. -/
theorem mem_processChunk_chunk {id : String} {cr : Nat} {m : String} {t : String}
    {c : ChatCompletionChunk} (h : Emitted.chunk c ∈ processChunk id cr m t) :
    c.id = id ∧ c.created = cr := by
  unfold processChunk at h
  split at h
  · simp at h
  · split at h
    · exact mem_processData_chunk h
    · simp at h

/-- The payload processor never emits a passthrough item. -/
theorem mem_processData_not_raw {id : String} {cr : Nat} {m : String} {data : List Char}
    {s : String} (h : Emitted.raw s ∈ processData id cr m data) : False := by
  unfold processData at h
  split at h
  · simp at h
  · split at h
    · simp at h
    · split at h
      · split at h
        · exact mem_catchFallback_not_raw h
        · split at h <;> simp at h
      · exact mem_catchFallback_not_raw h

/-- If processing one delivered chunk emits something that serializes to
the sentinel event, that chunk was itself a `[DONE]` event. -/
theorem processChunk_sentinel {id : String} {cr : Nat} {m : String} {t : String}
    {e : Emitted} (he : e ∈ processChunk id cr m t)
    (hs : serializeEmitted e = doneSentinel) : isDoneEvent t = true := by
  unfold processChunk at he
  split at he
  · simp at he
  · split at he
    · rename_i hstart
      cases e with
      | raw s => exact absurd he mem_processData_not_raw
      | chunk c => exact absurd hs (serializeChunk_ne_sentinel c)
      | done =>
        have hd := mem_processData_done he
        unfold isDoneEvent
        rw [hstart, hd]
        decide
    · rename_i hstart
      simp at he
      subst he
      have h2 := serializeRaw_eq_sentinel hs
      rw [h2] at hstart
      exact absurd (by decide : startsWithChars "data: [DONE]\n".data "data: ".data = true) hstart

/-- Claim C1, amended: the synthesized streaming path of `index.ts` always
ends its event sequence with the literal `data: [DONE]\n\n` sentinel, but
the re-framer `transformStreamToDeepSeekFormat` only passes an upstream
sentinel through and never appends one of its own — when no delivered
chunk is a `[DONE]` event, the sentinel never appears in its output. -/
theorem claim1_done_sentinel :
    (∀ rid v, (simulatedStream rid v).getLast? = some doneSentinel)
    ∧ (∀ id cr m chks, (∀ t ∈ chks, isDoneEvent t = false) →
        doneSentinel ∉ transformStreamToDeepSeekFormat id cr m chks) := by
  constructor
  · intro rid v
    unfold simulatedStream
    exact List.getLast?_concat _
  · intro id cr m chks hno hmem
    rw [transformStreamToDeepSeekFormat, List.mem_map] at hmem
    obtain ⟨e, he, hs⟩ := hmem
    obtain ⟨t, ht, het⟩ := mem_transformEmitted he
    have hd := processChunk_sentinel het hs
    rw [hno t ht] at hd
    cases hd

/-- Claim C1, counterexample: an upstream stream consisting of one
ordinary content event is re-framed into a stream that does not end with
the `[DONE]` sentinel, refuting the claim that every emitted sequence ends
with it whether or not upstream supplied one. -/
theorem claim1_done_sentinel_cex :
    (transformStreamToDeepSeekFormat "chatcmpl-1" 7 "deepseek-chat"
        ["data: \x7b\"response\":\"Hi\",\"done\":false\x7d"]).getLast?
      ≠ some doneSentinel := by decide

/-- Claim C1, witness: the amended statement applied to one concrete
synthesized stream and one concrete sentinel-free upstream stream. -/
theorem claim1_done_sentinel_witness :
    (simulatedStream "chatcmpl-1" (.str "Hello")).getLast? = some doneSentinel
    ∧ doneSentinel ∉ transformStreamToDeepSeekFormat "chatcmpl-1" 7 "deepseek-chat"
        ["data: \x7b\"response\":\"Hi\"\x7d"] :=
  ⟨claim1_done_sentinel.1 "chatcmpl-1" (.str "Hello"),
   claim1_done_sentinel.2 "chatcmpl-1" 7 "deepseek-chat" _ (by decide)⟩

/-- Claim C2, amended: every chunk the re-framer emits within one stream
carries that stream's fixed `id` and `created` (hence the same values as
the first chunk); every chunk of one synthesized `index.ts` stream carries
that stream's fixed `responseId` — but those chunks have no `created`
field at all (see the counterexample). -/
theorem claim2_id_created :
    (∀ id cr m chks c, Emitted.chunk c ∈ transformEmitted id cr m chks →
        c.id = id ∧ c.created = cr)
    ∧ (∀ rid v bc, bc ∈ simulatedChunks rid v → bc.id = rid) := by
  constructor
  · intro id cr m chks c hmem
    obtain ⟨t, _, het⟩ := mem_transformEmitted hmem
    exact mem_processChunk_chunk het
  · intro rid v bc hmem
    unfold simulatedChunks at hmem
    rw [List.mem_append] at hmem
    rcases hmem with h | h
    · rw [List.mem_map] at h
      obtain ⟨s, _, hs⟩ := h
      rw [← hs]
    · simp at h
      rw [h]

set_option maxRecDepth 8192 in
/-- Claim C2, counterexample: the first event of a concrete synthesized
`index.ts` stream parses to a JSON object with no `created` field at all
(`getProp` yields `undefined`), so the chunks of that stream cannot all
carry the same `created` value as the first chunk — none carries one. -/
theorem claim2_id_created_cex :
    (simulatedStream "chatcmpl-1" (.str "Hello")).head? =
      some ("data: \x7b\"id\":\"chatcmpl-1\",\"object\":\"chat.completion.chunk\",\"choices\":[\x7b\"delta\":\x7b\"content\":\"Hello\"\x7d,\"index\":0,\"finish_reason\":null\x7d]\x7d\n\n")
    ∧ (jsonParse "\x7b\"id\":\"chatcmpl-1\",\"object\":\"chat.completion.chunk\",\"choices\":[\x7b\"delta\":\x7b\"content\":\"Hello\"\x7d,\"index\":0,\"finish_reason\":null\x7d]\x7d").map
        (fun v => getProp v "created") = some .undefined :=
  ⟨rfl, rfl⟩

/-- Claim C2, witness: the amended statement applied to a concrete
re-framed stream of two events and a concrete synthesized stream. -/
theorem claim2_id_created_witness :
    (∀ c, Emitted.chunk c ∈ transformEmitted "chatcmpl-1" 7 "deepseek-chat"
        ["data: \x7b\"response\":\"A\"\x7d", "data: \x7b\"response\":\"B\",\"done\":true\x7d"] →
        c.id = "chatcmpl-1" ∧ c.created = 7)
    ∧ (∀ bc, bc ∈ simulatedChunks "chatcmpl-9" (.str "Hello") → bc.id = "chatcmpl-9") :=
  ⟨fun c h => claim2_id_created.1 "chatcmpl-1" 7 "deepseek-chat" _ c h,
   fun bc h => claim2_id_created.2 "chatcmpl-9" (.str "Hello") bc h⟩

/-- When the keep-alive conditions hold (non-empty, non-blank, not the
empty object), the catch fallback emits exactly one chunk whose content is
the regex capture, or the empty string when the pattern finds nothing (an
empty capture takes the keep-alive branch, whose output coincides). -/
theorem catchFallback_eq {id : String} {cr : Nat} {m : String} {data : List Char}
    (hne : data ≠ []) (htr : trimChars data ≠ []) (hobj : data ≠ emptyObjLit) :
    catchFallback id cr m data =
      [.chunk (mkChunk id cr m
        (.str (String.mk ((regexResponseCapture data).getD []))) none)] := by
  unfold catchFallback emptyFallback
  rw [if_pos ⟨hne, htr, hobj⟩]
  cases hcap : regexResponseCapture data with
  | none => rfl
  | some cap =>
    cases cap with
    | nil => rfl
    | cons c cs => rfl

/-- Claim C3, amended: for a delivered payload that parses as JSON, a
`response` read of `undefined` (the code checks `!== undefined`) emits
nothing; a `response` read of anything else emits exactly one chunk whose
`delta.content` is the read value (empty string when falsy) and whose
`finish_reason` is `"stop"` exactly when the payload's `done` flag is
truthy — provided the payload is not first skipped by the
usage-bookkeeping check (literal `"usage"` present without literal
`"response"`), a proviso the original claim omits (see the
counterexample).  For the payload `null` the `parsed.response` access
itself throws a `TypeError` and the catch emits one empty-content
keep-alive chunk instead of nothing. -/
theorem claim3_parsed_response :
    (∀ id cr m data v r, jsonParseChars data = some v →
        getPropEx v "response" = some r → isUndefined r = true →
        processData id cr m data = [])
    ∧ (∀ id cr m data v r, jsonParseChars data = some v →
        getPropEx v "response" = some r → isUndefined r = false →
        (containsSub data usageLit && !containsSub data responseLit) = false →
        processData id cr m data =
          [.chunk (mkChunk id cr m
            (if truthy r then r else .str "")
            (if truthy ((getPropEx v "done").getD .undefined) then some "stop" else none))])
    ∧ (∀ id cr m data v, jsonParseChars data = some v →
        getPropEx v "response" = none →
        (containsSub data usageLit && !containsSub data responseLit) = false →
        data ≠ [] → trimChars data ≠ [] → data ≠ emptyObjLit →
        processData id cr m data =
          [.chunk (mkChunk id cr m
            (.str (String.mk ((regexResponseCapture data).getD []))) none)]) := by
  refine ⟨?_, ?_, ?_⟩
  · intro id cr m data v r hp hr hu
    by_cases h1 : data = doneLit
    · rw [h1, show jsonParseChars doneLit = none from rfl] at hp
      exact Option.noConfusion hp
    · by_cases h2 : (data.isEmpty || data = emptyObjLit
          || (containsSub data usageLit && !containsSub data responseLit)) = true
      · unfold processData
        rw [if_neg h1, if_pos h2]
      · simp [processData, hp, hr, hu, h1, h2]
  · intro id cr m data v r hp hr hu husage
    by_cases h1 : data = doneLit
    · rw [h1, show jsonParseChars doneLit = none from rfl] at hp
      exact Option.noConfusion hp
    · by_cases h2 : (data.isEmpty || data = emptyObjLit
          || (containsSub data usageLit && !containsSub data responseLit)) = true
      · exfalso
        rw [husage] at h2
        simp at h2
        rcases h2 with h2 | h2
        · rw [h2, show jsonParseChars ([] : List Char) = none from rfl] at hp
          exact Option.noConfusion hp
        · rw [h2, show jsonParseChars emptyObjLit = some (.obj []) from rfl] at hp
          injection hp with hv
          rw [← hv, show getPropEx (.obj []) "response" = some .undefined from rfl] at hr
          injection hr with hrv
          rw [← hrv] at hu
          exact absurd hu (by decide)
      · simp [processData, hp, hr, hu, h1, h2]
  · intro id cr m data v hp hnone husage hne htr hobj
    have h1 : data ≠ doneLit := by
      intro hd
      rw [hd, show jsonParseChars doneLit = none from rfl] at hp
      exact Option.noConfusion hp
    have h2 : (data.isEmpty || data = emptyObjLit
        || (containsSub data usageLit && !containsSub data responseLit)) = false := by
      rw [husage]
      simp [hne, hobj]
    simp [processData, hp, hnone, h1, h2, catchFallback_eq hne htr hobj]

/-- Claim C3, counterexample: the payload `{"usage":1,"response":"hi"}`
parses as JSON with a `response` field of `"hi"` (the `e` escape
decodes to `e`), yet the raw text contains `"usage"` and not `"response"`,
so the usage-bookkeeping check skips it and the re-framer emits nothing,
where the claim demands one chunk with content `"hi"`. -/
theorem claim3_parsed_response_cex :
    jsonParse "\x7b\"usage\":1,\"respons\\u0065\":\"hi\"\x7d"
      = some (.obj [("usage", jsInt 1), ("response", .str "hi")])
    ∧ getProp (.obj [("usage", jsInt 1), ("response", .str "hi")]) "response" = .str "hi"
    ∧ processData "chatcmpl-1" 7 "deepseek-chat"
        "\x7b\"usage\":1,\"respons\\u0065\":\"hi\"\x7d".data = [] :=
  ⟨rfl, rfl, rfl⟩

/-- Claim C3, witness: the amended statement applied to the
specification's own examples (`done:false` keeps `finish_reason` null,
`done:true` makes it `"stop"`, a usage-only record emits nothing) and to
the `null` payload, whose thrown `response` access yields the empty
keep-alive chunk. -/
theorem claim3_parsed_response_witness :
    processData "chatcmpl-1" 7 "deepseek-chat" "\x7b\"response\":\"Hi\",\"done\":false\x7d".data
      = [.chunk (mkChunk "chatcmpl-1" 7 "deepseek-chat" (.str "Hi") none)]
    ∧ processData "chatcmpl-1" 7 "deepseek-chat" "\x7b\"response\":\"Hi\",\"done\":true\x7d".data
      = [.chunk (mkChunk "chatcmpl-1" 7 "deepseek-chat" (.str "Hi") (some "stop"))]
    ∧ processData "chatcmpl-1" 7 "deepseek-chat" "\x7b\"usage\":\x7b\"tokens\":5\x7d,\"other\":1\x7d".data = []
    ∧ processData "chatcmpl-1" 7 "deepseek-chat" "null".data
      = [.chunk (mkChunk "chatcmpl-1" 7 "deepseek-chat" (.str "") none)] :=
  ⟨claim3_parsed_response.2.1 "chatcmpl-1" 7 "deepseek-chat" _
    (.obj [("response", .str "Hi"), ("done", .bool false)]) (.str "Hi") rfl rfl rfl (by decide),
   claim3_parsed_response.2.1 "chatcmpl-1" 7 "deepseek-chat" _
    (.obj [("response", .str "Hi"), ("done", .bool true)]) (.str "Hi") rfl rfl rfl (by decide),
   claim3_parsed_response.1 "chatcmpl-1" 7 "deepseek-chat" _
    (.obj [("usage", .obj [("tokens", jsInt 5)]), ("other", jsInt 1)]) .undefined rfl rfl rfl,
   claim3_parsed_response.2.2 "chatcmpl-1" 7 "deepseek-chat" _ .null
    rfl rfl (by decide) (by decide) (by decide) (by decide)⟩

/-- Claim C4, amended: for a delivered payload that fails JSON parsing and
is neither the `[DONE]` sentinel nor skipped by the usage-bookkeeping check
(provisos the original claim omits — see the counterexample), and that is
non-empty, non-blank and not the empty object, the re-framer emits exactly
one chunk with `finish_reason` null whose `delta.content` is the text
captured by the literal `"response":"..."` pattern, or the empty string
when the pattern finds nothing (an empty capture takes the keep-alive
branch, whose output coincides); the failure itself is never surfaced and
the stream continues. -/
theorem claim4_regex_fallback :
    ∀ id cr m data, jsonParseChars data = none →
      data ≠ doneLit →
      (containsSub data usageLit && !containsSub data responseLit) = false →
      data ≠ [] → trimChars data ≠ [] → data ≠ emptyObjLit →
      processData id cr m data =
        [.chunk (mkChunk id cr m
          (.str (String.mk ((regexResponseCapture data).getD []))) none)] := by
  intro id cr m data hp h1 husage hne htr hobj
  have h2 : (data.isEmpty || data = emptyObjLit
      || (containsSub data usageLit && !containsSub data responseLit)) = false := by
    rw [husage]
    simp [hne, hobj]
  unfold processData
  rw [if_neg h1, if_neg (by rw [h2]; exact Bool.false_ne_true), hp]
  exact catchFallback_eq hne htr hobj

/-- Claim C4, counterexample: the truncated payload `{"usage":` fails JSON
parsing, the fallback pattern finds nothing, and the payload is non-empty
and not the empty object, so the claim demands a keep-alive chunk — but
the usage-bookkeeping check runs first and the re-framer emits nothing. -/
theorem claim4_regex_fallback_cex :
    jsonParse "\x7b\"usage\":" = none
    ∧ regexResponseCapture "\x7b\"usage\":".data = none
    ∧ "\x7b\"usage\":".data ≠ []
    ∧ "\x7b\"usage\":".data ≠ emptyObjLit
    ∧ processData "chatcmpl-1" 7 "deepseek-chat" "\x7b\"usage\":".data = [] :=
  ⟨rfl, rfl, by decide, by decide, rfl⟩

/-- Claim C4, witness: the amended statement applied to a truncated payload
whose pattern capture succeeds (`"Hi"`) and to one where the pattern finds
nothing and the empty keep-alive chunk is emitted. -/
theorem claim4_regex_fallback_witness :
    processData "chatcmpl-1" 7 "deepseek-chat" "\x7b\"response\":\"Hi\",".data
      = [.chunk (mkChunk "chatcmpl-1" 7 "deepseek-chat" (.str "Hi") none)]
    ∧ processData "chatcmpl-1" 7 "deepseek-chat" "\x7b\"broken\":".data
      = [.chunk (mkChunk "chatcmpl-1" 7 "deepseek-chat" (.str "") none)] :=
  ⟨claim4_regex_fallback "chatcmpl-1" 7 "deepseek-chat" _
    rfl (by decide) (by decide) (by decide) (by decide) (by decide),
   claim4_regex_fallback "chatcmpl-1" 7 "deepseek-chat" _
    rfl (by decide) (by decide) (by decide) (by decide) (by decide)⟩

/-- The strict normalization of `createChatCompletion` accepts exactly the
boolean `true` and the string `"true"` (an absent `stream` defaults to
`false` first). -/
theorem isStreamA_iff (req : ReqA) :
    isStreamA req = true ↔ (req.streamField = .bool true ∨ req.streamField = .str "true") := by
  unfold isStreamA streamOrDefault normalizeStream
  cases h : req.streamField with
  | undefined => simp [isUndefined]
  | null => simp [isUndefined]
  | bool b => cases b <;> simp [isUndefined]
  | num m e => simp [isUndefined]
  | str s => simp [isUndefined]
  | arr l => simp [isUndefined]
  | obj l => simp [isUndefined]

/-- Claim C5, amended: `createChatCompletion` answers with an event stream
exactly when the request's `stream` field is the boolean `true` or the
string `"true"`; the `index.ts` handler instead answers with an event
stream exactly when the field is truthy, so other truthy values (numbers,
objects, non-`"true"` strings) take its streaming path (see the
counterexample) — for requests that reach the mode branch at all, i.e.
whose prompt building and upstream-result read do not throw (a
`null`/`undefined` message member or upstream result is answered 500
before any mode is chosen). -/
theorem claim5_stream_mode :
    (∀ id cr pe req chks,
        ((createChatCompletion id cr pe req (.byteStream chks)).1.contentType
            = some "text/event-stream")
          ↔ (req.streamField = .bool true ∨ req.streamField = .str "true"))
    ∧ (∀ rid cr tErr body ai msgs prompt fr, msgsOf body.messages = some msgs →
        promptOfEx msgs = some prompt →
        getPropEx ai "response" = some fr →
        (((indexCompletion rid cr tErr body ai).1.contentType = some "text/event-stream")
          ↔ truthy body.streamField = true)) := by
  constructor
  · intro id cr pe req chks
    rw [← isStreamA_iff]
    unfold createChatCompletion
    by_cases h : isStreamA req
    · simp [h]
    · simp [h]
  · intro rid cr tErr body ai msgs prompt fr hmsgs hprompt hfr
    by_cases h : truthy body.streamField
    · simp [indexCompletion, hmsgs, hprompt, hfr, h]
    · simp [indexCompletion, hmsgs, hprompt, hfr, h]

/-- Claim C5, counterexample: a request whose `stream` field is the number
`1` — truthy but neither `true` nor `"true"` — is served an event stream
by the `index.ts` handler, where the claim demands the non-streaming
path. -/
theorem claim5_stream_mode_cex :
    truthy (jsInt 1) = true
    ∧ normalizeStream (jsInt 1) = false
    ∧ (indexCompletion "chatcmpl-1" 7 "e" ⟨"m", .arr [], jsInt 1⟩
        (.obj [("response", .str "Hi")])).1.contentType = some "text/event-stream" :=
  ⟨rfl, rfl, rfl⟩

/-- Claim C5, witness: the amended statement applied to a `stream: "true"`
request of `createChatCompletion` and a `stream: true` request of the
`index.ts` core. -/
theorem claim5_stream_mode_witness :
    (((createChatCompletion "chatcmpl-1" 7 "e"
        ⟨"deepseek-chat", .arr [], .str "true", []⟩ (.byteStream [])).1.contentType
        = some "text/event-stream")
      ↔ ((.str "true" : JsValue) = .bool true ∨ (.str "true" : JsValue) = .str "true"))
    ∧ (((indexCompletion "chatcmpl-1" 7 "e" ⟨"m", .arr [], .bool true⟩ (.obj [])).1.contentType
        = some "text/event-stream")
      ↔ truthy (.bool true) = true) :=
  ⟨claim5_stream_mode.1 "chatcmpl-1" 7 "e" ⟨"deepseek-chat", .arr [], .str "true", []⟩ [],
   claim5_stream_mode.2 "chatcmpl-1" 7 "e" ⟨"m", .arr [], .bool true⟩ (.obj [])
     [] "\nassistant:" .undefined rfl rfl rfl⟩

/-- Claim C6, amended: `createChatCompletion` invokes the upstream
capability exactly once per request, with the alias-resolved model, the
message sequence, the pass-through options and a stream flag equal to the
normalized request flag; unknown model names pass through unchanged unless
they name an inherited `Object.prototype` member (`toString`,
`constructor`, ...), in which case the index access resolves to the truthy
inherited member instead.  The `index.ts` handler invokes the capability
exactly once when prompt building succeeds, but hands over a joined prompt
instead of the message sequence, a hard-coded `max_tokens` of 200 instead
of the request options, and never requests streaming; a `null`/`undefined`
message member throws before the call, yielding a 500 and zero
invocations (see the counterexample). -/
theorem claim6_upstream_invocation :
    (∀ id cr pe req aiResp,
        (createChatCompletion id cr pe req aiResp).2 = [upstreamCallApi req])
    ∧ (∀ m, MODEL_MAPPING_api.lookup m = none → m ∉ objectProtoKeys →
        resolveModel MODEL_MAPPING_api m = .name m)
    ∧ (∀ m, MODEL_MAPPING_api.lookup m = none → m ∈ objectProtoKeys →
        resolveModel MODEL_MAPPING_api m = .inheritedMember m)
    ∧ (∀ rid cr tErr body ai msgs prompt, msgsOf body.messages = some msgs →
        promptOfEx msgs = some prompt →
        (indexCompletion rid cr tErr body ai).2 = [upstreamCallIndex body.model prompt])
    ∧ (∀ rid cr tErr body ai msgs, msgsOf body.messages = some msgs →
        promptOfEx msgs = none →
        indexCompletion rid cr tErr body ai = (internalErrorResponse tErr, [])) := by
  refine ⟨?_, ?_, ?_, ?_, ?_⟩
  · intro id cr pe req aiResp
    unfold createChatCompletion
    by_cases h : isStreamA req
    · cases aiResp <;> simp [h]
    · simp [h]
  · intro m hm hnot
    unfold resolveModel
    rw [hm, if_neg hnot]
  · intro m hm hmem
    unfold resolveModel
    rw [hm, if_pos hmem]
  · intro rid cr tErr body ai msgs prompt hmsgs hprompt
    cases hai : getPropEx ai "response" with
    | none => simp [indexCompletion, hmsgs, hprompt, hai]
    | some fr =>
      by_cases h : truthy body.streamField
      · simp [indexCompletion, hmsgs, hprompt, hai, h]
      · simp [indexCompletion, hmsgs, hprompt, hai, h]
  · intro rid cr tErr body ai msgs hmsgs hprompt
    simp [indexCompletion, hmsgs, hprompt]

/-- Claim C6, counterexample: for a `stream: true` request, the single
upstream invocation of the `index.ts` handler carries a prompt (not the
message sequence) and requests non-streaming mode while the normalized
stream flag is `true`; the unknown model name `toString` does not pass
through but resolves to the inherited `Object.prototype` member; and a
request whose messages contain `null` throws before `env.AI.run`, so the
upstream is invoked zero times, not exactly once. -/
theorem claim6_upstream_invocation_cex :
    (indexCompletion "chatcmpl-1" 7 "e" ⟨"m", .arr [], .bool true⟩ (.obj [])).2
      = [⟨.name "m", .optsB "\nassistant:" 200⟩]
    ∧ requestedStream (.optsB "\nassistant:" 200) = false
    ∧ normalizeStream (.bool true) = true
    ∧ resolveModel MODEL_MAPPING_api "toString" = .inheritedMember "toString"
    ∧ (indexCompletion "chatcmpl-1" 7 "e" ⟨"m", .arr [.null], .bool true⟩ (.obj [])).2 = [] :=
  ⟨rfl, rfl, rfl, rfl, rfl⟩

/-- Claim C6, witness: the amended statement applied to a concrete
streaming request of `createChatCompletion`, an unknown model name, an
inherited member name, a concrete request of the `index.ts` core, and a
request with a `null` message member. -/
theorem claim6_upstream_invocation_witness :
    (createChatCompletion "chatcmpl-1" 7 "e"
        ⟨"deepseek-chat", .arr [], .bool true, [("max_tokens", jsInt 100)]⟩
        (.byteStream [])).2
      = [upstreamCallApi ⟨"deepseek-chat", .arr [], .bool true, [("max_tokens", jsInt 100)]⟩]
    ∧ resolveModel MODEL_MAPPING_api "some-unknown-model" = .name "some-unknown-model"
    ∧ resolveModel MODEL_MAPPING_api "valueOf" = .inheritedMember "valueOf"
    ∧ (indexCompletion "chatcmpl-1" 7 "e"
        ⟨"deepseek-reasoner", .arr [.obj [("role", .str "user"), ("content", .str "Hello!")]],
          .bool false⟩ (.obj [])).2
      = [upstreamCallIndex "deepseek-reasoner" "user: Hello!\nassistant:"]
    ∧ indexCompletion "chatcmpl-1" 7 "boom" ⟨"m", .arr [.null], .bool false⟩ (.obj [])
      = (internalErrorResponse "boom", []) :=
  ⟨claim6_upstream_invocation.1 "chatcmpl-1" 7 "e" _ (.byteStream []),
   claim6_upstream_invocation.2.1 "some-unknown-model" rfl (by decide),
   claim6_upstream_invocation.2.2.1 "valueOf" rfl (by decide),
   claim6_upstream_invocation.2.2.2.1 "chatcmpl-1" 7 "e" _ (.obj []) _ _ rfl rfl,
   claim6_upstream_invocation.2.2.2.2 "chatcmpl-1" 7 "boom" _ (.obj []) _ rfl rfl⟩

/-- Claim C7, amended: for every POST to a chat-completion path whose
credential fails `validateToken` (missing header, non-Bearer scheme, or a
token different from the configured secret), the `index.ts` handler
returns 401 with the body `{"error":"Unauthorized","message":"Invalid API
token"}` — whose `error` field is a plain string, not the structured
`{error: {message, type, ...}}` object the original claim states (see the
counterexample) — and the upstream capability is never invoked. -/
theorem claim7_unauthorized :
    ∀ path authHeader apiToken bodyOpt ai rid cr tErr,
      (path = "/chat/completions" ∨ path = "/v1/chat/completions") →
      validateToken authHeader apiToken = false →
      fetchIndex "POST" path authHeader apiToken bodyOpt ai rid cr tErr
        = (unauthorizedResponse, []) := by
  intro path authHeader apiToken bodyOpt ai rid cr tErr hpath hval
  unfold fetchIndex
  rw [if_neg (by decide), if_pos hpath, if_neg (by decide)]
  rw [hval]
  rfl

/-- Claim C7, counterexample: the 401 body of a credential-less POST is
`{"error":"Unauthorized","message":"Invalid API token"}`, which does not
have the claimed `{error: {message, type, ...}}` shape. -/
theorem claim7_unauthorized_cex :
    (fetchIndex "POST" "/chat/completions" none "secret" none .undefined "r" 0 "e").1.status = 401
    ∧ (fetchIndex "POST" "/chat/completions" none "secret" none .undefined "r" 0 "e").1.body
        = .text "\x7b\"error\":\"Unauthorized\",\"message\":\"Invalid API token\"\x7d"
    ∧ errorShapedBody "\x7b\"error\":\"Unauthorized\",\"message\":\"Invalid API token\"\x7d" = false :=
  ⟨rfl, rfl, rfl⟩

/-- Claim C7, witness: the amended statement applied to a wrong scheme, a
mismatched token and a missing header. -/
theorem claim7_unauthorized_witness :
    fetchIndex "POST" "/v1/chat/completions" (some "Basic c2VjcmV0") "secret" none .undefined "r" 0 "e"
      = (unauthorizedResponse, [])
    ∧ fetchIndex "POST" "/chat/completions" (some "Bearer wrong") "secret" none .undefined "r" 0 "e"
      = (unauthorizedResponse, [])
    ∧ fetchIndex "POST" "/chat/completions" none "secret" none .undefined "r" 0 "e"
      = (unauthorizedResponse, []) :=
  ⟨claim7_unauthorized _ _ _ _ _ _ _ _ (Or.inr rfl) rfl,
   claim7_unauthorized _ _ _ _ _ _ _ _ (Or.inl rfl) rfl,
   claim7_unauthorized _ _ _ _ _ _ _ _ (Or.inl rfl) rfl⟩

/-- Claim C8, amended: on a POST to a chat-completion path whose body is
not valid JSON, the `index.ts` handler (after a passing credential check)
returns 400 with `{"error":"Invalid JSON body"}`, while the second router
variant lets the parse error fall into its catch-all and returns 500 (see
the counterexample); in both variants the translator core and the upstream
capability are never invoked. -/
theorem claim8_bad_json :
    (∀ path authHeader apiToken ai rid cr tErr,
      (path = "/chat/completions" ∨ path = "/v1/chat/completions") →
      validateToken authHeader apiToken = true →
      fetchIndex "POST" path authHeader apiToken none ai rid cr tErr
        = (invalidJsonResponse, []))
    ∧ (∀ path parseErrMsg pe id cr aiResp demo,
      (path = "/chat/completions" ∨ path = "/v1/chat/completions") →
      fetchApiRouter "POST" path none parseErrMsg pe id cr aiResp demo
        = (internalErrorResponse parseErrMsg, [])) := by
  constructor
  · intro path authHeader apiToken ai rid cr tErr hpath hval
    unfold fetchIndex
    rw [if_neg (by decide), if_pos hpath, if_neg (by decide), if_pos hval]
  · intro path parseErrMsg pe id cr aiResp demo hpath
    unfold fetchApiRouter
    rw [if_neg (by decide), if_pos hpath, if_neg (by decide)]

/-- Claim C8, counterexample: the second router variant answers a POST with
an unparseable body with status 500, not the claimed 400 (the upstream is
still never invoked). -/
theorem claim8_bad_json_cex :
    (fetchApiRouter "POST" "/chat/completions" none "Unexpected end of JSON input"
        "e" "chatcmpl-1" 7 (.value .undefined) []).1.status = 500
    ∧ (fetchApiRouter "POST" "/chat/completions" none "Unexpected end of JSON input"
        "e" "chatcmpl-1" 7 (.value .undefined) []).2 = [] :=
  ⟨rfl, rfl⟩

/-- Claim C8, witness: the amended statement applied to one concrete
bad-body POST per variant. -/
theorem claim8_bad_json_witness :
    fetchIndex "POST" "/chat/completions" (some "Bearer tok") "tok" none .undefined "r" 0 "e"
      = (invalidJsonResponse, [])
    ∧ fetchApiRouter "POST" "/v1/chat/completions" none "boom" "e" "i" 0 (.value .undefined) []
      = (internalErrorResponse "boom", []) :=
  ⟨claim8_bad_json.1 _ _ _ _ _ _ _ (Or.inl rfl) rfl,
   claim8_bad_json.2 _ _ _ _ _ _ _ (Or.inr rfl)⟩

/-- Claim C9, amended: both handlers answer 404 on every non-OPTIONS
request outside the two chat-completion paths — except that the second
router variant serves its streaming demo (status 200, one demo upstream
invocation) on `/` and `/demo` (see the counterexample); a non-POST,
non-OPTIONS method on the two chat paths is answered 405 by both. -/
theorem claim9_routing :
    (∀ method path authHeader apiToken bodyOpt ai rid cr tErr,
      method ≠ "OPTIONS" →
      path ≠ "/chat/completions" → path ≠ "/v1/chat/completions" →
      fetchIndex method path authHeader apiToken bodyOpt ai rid cr tErr
        = (notFoundResponse, []))
    ∧ (∀ method path bodyOpt pmsg pe id cr aiResp demo,
      method ≠ "OPTIONS" →
      path ≠ "/chat/completions" → path ≠ "/v1/chat/completions" →
      path ≠ "/" → path ≠ "/demo" →
      fetchApiRouter method path bodyOpt pmsg pe id cr aiResp demo
        = (notFoundResponse, []))
    ∧ (∀ method path authHeader apiToken bodyOpt ai rid cr tErr,
      method ≠ "OPTIONS" → method ≠ "POST" →
      (path = "/chat/completions" ∨ path = "/v1/chat/completions") →
      fetchIndex method path authHeader apiToken bodyOpt ai rid cr tErr
        = (methodNotAllowedResponse, []))
    ∧ (∀ method path bodyOpt pmsg pe id cr aiResp demo,
      method ≠ "OPTIONS" → method ≠ "POST" →
      (path = "/chat/completions" ∨ path = "/v1/chat/completions") →
      fetchApiRouter method path bodyOpt pmsg pe id cr aiResp demo
        = (methodNotAllowedResponse, []))
    ∧ (∀ method path bodyOpt pmsg pe id cr aiResp demo,
      method ≠ "OPTIONS" → (path = "/" ∨ path = "/demo") →
      fetchApiRouter method path bodyOpt pmsg pe id cr aiResp demo
        = (⟨200, some "text/event-stream", .sse demo⟩, [demoRunCall])) := by
  refine ⟨?_, ?_, ?_, ?_, ?_⟩
  · intro method path authHeader apiToken bodyOpt ai rid cr tErr hm hp1 hp2
    unfold fetchIndex
    rw [if_neg hm, if_neg (by simp [hp1, hp2])]
  · intro method path bodyOpt pmsg pe id cr aiResp demo hm hp1 hp2 hp3 hp4
    unfold fetchApiRouter
    rw [if_neg hm, if_neg (by simp [hp1, hp2]), if_neg (by simp [hp3, hp4])]
  · intro method path authHeader apiToken bodyOpt ai rid cr tErr hm hpost hpath
    unfold fetchIndex
    rw [if_neg hm, if_pos hpath, if_pos hpost]
  · intro method path bodyOpt pmsg pe id cr aiResp demo hm hpost hpath
    unfold fetchApiRouter
    rw [if_neg hm, if_pos hpath, if_pos hpost]
  · intro method path bodyOpt pmsg pe id cr aiResp demo hm hpath
    unfold fetchApiRouter
    rcases hpath with h | h <;> rw [if_neg hm, if_neg (by simp [h]), if_pos (by simp [h])]

/-- Claim C9, counterexample: a GET to `/demo` — a path outside the two
chat-completion paths, with a non-OPTIONS method — is answered 200 with
the demo stream by the second router variant, not 404, and it does invoke
the upstream capability once. -/
theorem claim9_routing_cex :
    (fetchApiRouter "GET" "/demo" none "p" "e" "chatcmpl-1" 7 (.value .undefined) ["ev"]).1.status
      = 200
    ∧ (fetchApiRouter "GET" "/demo" none "p" "e" "chatcmpl-1" 7 (.value .undefined) ["ev"]).2
      = [demoRunCall] :=
  ⟨rfl, rfl⟩

/-- Claim C9, witness: the amended statement applied to `/foo` (404 in both
variants), wrong methods on the chat paths (405 in both), and the demo
route of the second variant. -/
theorem claim9_routing_witness :
    fetchIndex "GET" "/foo" none "t" none .undefined "r" 0 "e" = (notFoundResponse, [])
    ∧ fetchApiRouter "GET" "/foo" none "p" "e" "i" 0 (.value .undefined) []
      = (notFoundResponse, [])
    ∧ fetchIndex "GET" "/chat/completions" none "t" none .undefined "r" 0 "e"
      = (methodNotAllowedResponse, [])
    ∧ fetchApiRouter "PUT" "/v1/chat/completions" none "p" "e" "i" 0 (.value .undefined) []
      = (methodNotAllowedResponse, [])
    ∧ fetchApiRouter "GET" "/" none "p" "e" "i" 0 (.value .undefined) ["ev"]
      = (⟨200, some "text/event-stream", .sse ["ev"]⟩, [demoRunCall]) :=
  ⟨claim9_routing.1 _ _ _ _ _ _ _ _ _ (by decide) (by decide) (by decide),
   claim9_routing.2.1 _ _ _ _ _ _ _ _ _ (by decide) (by decide) (by decide) (by decide) (by decide),
   claim9_routing.2.2.1 _ _ _ _ _ _ _ _ _ (by decide) (by decide) (Or.inl rfl),
   claim9_routing.2.2.2.1 _ _ _ _ _ _ _ _ _ (by decide) (by decide) (Or.inr rfl),
   claim9_routing.2.2.2.2 _ _ _ _ _ _ _ _ _ (by decide) (Or.inl rfl)⟩

/-- Claim C10, confirmed: in the non-streaming path of
`createChatCompletion`, an upstream object with neither a `response` nor a
`text` field yields the JSON serialization of the whole object as the
message content, and a present-but-falsy `response` (or, with `response`
absent, a present-but-falsy `text`) yields the empty string.
`extractContent` is exactly the content put into `choices[0].message` of
the serialized completion. -/
theorem claim10_object_content :
    (∀ fields, lookupProp fields "response" = none → lookupProp fields "text" = none →
      extractContent (.value (.obj fields)) = .str (jsonStringify (.obj fields)))
    ∧ (∀ fields r, lookupProp fields "response" = some r → truthy r = false →
      extractContent (.value (.obj fields)) = .str "")
    ∧ (∀ fields t, lookupProp fields "response" = none → lookupProp fields "text" = some t →
      truthy t = false → extractContent (.value (.obj fields)) = .str "") := by
  refine ⟨?_, ?_, ?_⟩
  · intro fields hr ht
    simp only [extractContent]
    rw [hr, ht]
  · intro fields r hr htr
    simp only [extractContent]
    rw [hr]
    show (if truthy r = true then r else JsValue.str "") = JsValue.str ""
    rw [htr]
    rfl
  · intro fields t hr ht htr
    simp only [extractContent]
    rw [hr, ht]
    show (if truthy t = true then t else JsValue.str "") = JsValue.str ""
    rw [htr]
    rfl

/-- Claim C10, witness: the statement applied to an object with neither
field, a `null` response, an empty-string response next to a truthy
`text` (which is not consulted), and a zero `text`. -/
theorem claim10_object_content_witness :
    extractContent (.value (.obj [("foo", .str "bar")]))
      = .str "\x7b\"foo\":\"bar\"\x7d"
    ∧ extractContent (.value (.obj [("response", .null)])) = .str ""
    ∧ extractContent (.value (.obj [("response", .str ""), ("text", .str "x")])) = .str ""
    ∧ extractContent (.value (.obj [("text", jsInt 0)])) = .str "" :=
  ⟨claim10_object_content.1 [("foo", .str "bar")] rfl rfl,
   claim10_object_content.2.1 [("response", .null)] .null rfl rfl,
   claim10_object_content.2.1 [("response", .str ""), ("text", .str "x")] (.str "") rfl rfl,
   claim10_object_content.2.2 [("text", jsInt 0)] (jsInt 0) rfl rfl rfl⟩
